import Mathlib

/-!
A shallow embedding of the session-authenticated notes backend
(`server/app.py`, `server/models.py`): users, notes, the session,
and the HTTP route handlers, modelled as pure functions over an
explicit server state.

Modelling conventions:
* Timestamps (`datetime.utcnow`) are naturals; each request that can
  write rows receives the current clock value `now` as a parameter.
* JSON primitive values are `JPrim`; response bodies are `Body`.
* bcrypt is external: `hash : String → String` (salted hashing) and
  `verify : String → String → Bool` (hash verification) are passed in
  as parameters to the operations that use them.
* A request body field that may be absent is `Option String`; a PATCH
  body field that distinguishes absent / null / string is
  `Option (Option String)` (`none` = absent, `some none` = JSON null).
* The SQL `ORDER BY created_at DESC` of the notes query is modelled as
  a stable descending sort over the table's insertion order
  (`orderByCreatedDesc`), and flask-sqlalchemy's `db.paginate` with
  `error_out=False`, `max_per_page=None` is modelled by `paginate`.
* SQLAlchemy's `onupdate=datetime.utcnow` on `Note.updated_at` fires
  exactly when the flush emits an UPDATE for the row. At flush time
  each assigned column's value is compared with its committed value
  (persistence.py's is_equal check) and the column is included only
  on a net change; when no column has a net change no UPDATE is
  emitted at all, so an update that assigns only values equal to the
  stored ones leaves `updated_at` unchanged.
-/

namespace NotesApp

/-- A JSON primitive value, as produced by `jsonify` for dict entries. -/
inductive JPrim where
  | jnull
  | jnum (n : Nat)
  | jstr (s : String)
deriving DecidableEq, Repr

/-- `models.User`: `id`, `username`, and the stored bcrypt digest
`_password_hash` (exposed read-only as the `password_hash` property). -/
structure UserT where
  id : Nat
  username : String
  password_hash : String
deriving DecidableEq, Repr

/-- `models.Note`: `id`, `title`, `content`, `created_at`, `updated_at`
(timestamps as naturals) and the owning `user_id`. -/
structure NoteT where
  id : Nat
  title : String
  content : String
  created_at : Nat
  updated_at : Nat
  user_id : Nat
deriving DecidableEq, Repr

/-- `User.to_dict`: the minimal representation sent to the frontend. -/
def UserT.to_dict (u : UserT) : List (String × JPrim) :=
  [("id", .jnum u.id), ("username", .jstr u.username)]

/-- `User.password` (the hybrid property getter): reading the password
raises `AttributeError("Password is write-only.")`. -/
def UserT.password (_ : UserT) : Except String String :=
  .error "Password is write-only."

/-- `User.check_password`: false on an empty stored digest, otherwise
bcrypt verification of the plaintext against the stored digest. -/
def UserT.check_password (verify : String → String → Bool) (u : UserT)
    (plain_text_password : String) : Bool :=
  if u.password_hash = "" then false
  else verify plain_text_password u.password_hash

/-- `Note.to_dict`: the representation for API responses. -/
def NoteT.to_dict (n : NoteT) : List (String × JPrim) :=
  [("id", .jnum n.id), ("title", .jstr n.title), ("content", .jstr n.content),
   ("created_at", .jnum n.created_at), ("updated_at", .jnum n.updated_at),
   ("user_id", .jnum n.user_id)]

/-- A `jsonify`-ed response body. -/
inductive Body where
  | obj (fields : List (String × JPrim))
  | errs (msgs : List String)
  | paged (items : List (List (String × JPrim))) (page per_page : Int)
      (total pages : Nat)
  | text (s : String)
deriving DecidableEq, Repr

/-- The server's persistent and session state: the `users` and `notes`
tables in insertion order, the next autoincrement ids, and
`session["user_id"]`. -/
structure ServerState where
  users : List UserT
  notes : List NoteT
  next_user_id : Nat
  next_note_id : Nat
  sess : Option Nat
deriving DecidableEq, Repr

/-- Python truthiness of an optional string: `None` and `""` are falsy. -/
def pyFalsy : Option String → Bool
  | none => true
  | some s => s = ""

/-- Python `str.strip()`: the string without its leading and trailing
whitespace. Defined over the character list by structural recursion so
that it evaluates inside the kernel. -/
def pyStrip (s : String) : String :=
  ⟨((s.data.dropWhile Char.isWhitespace).reverse.dropWhile
    Char.isWhitespace).reverse⟩

/-- `User.query.filter_by(username=name).first()`. -/
def firstUserNamed (users : List UserT) (name : String) : Option UserT :=
  users.find? (fun u => u.username = name)

/-- `User.query.get(uid)`: primary-key lookup. -/
def userById (users : List UserT) (uid : Nat) : Option UserT :=
  users.find? (fun u => u.id = uid)

/-- `get_current_user`: resolve `session["user_id"]` to a `User`, or
`None` (a falsy id — in the integer model, 0 — is treated as absent). -/
def get_current_user (st : ServerState) : Option UserT :=
  match st.sess with
  | none => none
  | some uid => if uid = 0 then none else userById st.users uid

/-- The uniform body of the `login_required` gate's 401 response. -/
def unauthorizedBody : Body := .obj [("error", .jstr "Unauthorized")]

/-- The POST `/signup` request body. -/
structure SignupReq where
  username : Option String
  password : Option String
  password_confirmation : Option String
deriving DecidableEq, Repr

/-- The validation-error list `signup` builds, in source order:
required-username, required-password, password-mismatch, then (only for
a non-empty username) the uniqueness check. -/
def signupErrors (st : ServerState) (req : SignupReq) : List String :=
  let username := pyStrip (req.username.getD "")
  (if username = "" then ["Username is required."] else []) ++
  (if pyFalsy req.password then ["Password is required."] else []) ++
  (if req.password ≠ req.password_confirmation then ["Passwords do not match."] else []) ++
  (if username ≠ "" ∧ (firstUserNamed st.users username).isSome then
    ["Username already taken."] else [])

/-- POST `/signup`: validate, and on success persist one new `User`
(password hashed by the `password` setter) and start a session. -/
def signup (hash : String → String) (st : ServerState) (req : SignupReq) :
    ServerState × (Nat × Body) :=
  let username := pyStrip (req.username.getD "")
  let errors := signupErrors st req
  if errors = [] then
    match req.password with
    | some p =>
      let user : UserT :=
        { id := st.next_user_id, username := username, password_hash := hash p }
      ({ st with users := st.users ++ [user],
                 next_user_id := st.next_user_id + 1,
                 sess := some user.id },
       (201, .obj user.to_dict))
    | none =>
      -- unreachable: an absent password puts "Password is required." in errors
      (st, (500, .text "ValueError"))
  else
    (st, (422, .errs errors))

/-- The POST `/login` request body. -/
structure LoginReq where
  username : Option String
  password : Option String
deriving DecidableEq, Repr

/-- `User.authenticate`: look up by exact username, check the password,
return the user if valid, else `None`. -/
def User_authenticate (verify : String → String → Bool) (users : List UserT)
    (username plain_text_password : String) : Option UserT :=
  match firstUserNamed users username with
  | some u => if u.check_password verify plain_text_password then some u else none
  | none => none

/-- The uniform body of every failed login. -/
def invalidCredentialsBody : Body :=
  .obj [("error", .jstr "Invalid username or password")]

/-- POST `/login`: missing fields are treated as invalid credentials;
otherwise authenticate and start a session. -/
def login (verify : String → String → Bool) (st : ServerState) (req : LoginReq) :
    ServerState × (Nat × Body) :=
  if pyFalsy req.username || pyFalsy req.password then
    (st, (401, invalidCredentialsBody))
  else
    match User_authenticate verify st.users (req.username.getD "")
        (req.password.getD "") with
    | none => (st, (401, invalidCredentialsBody))
    | some u => ({ st with sess := some u.id }, (200, .obj u.to_dict))

/-- GET `/check_session`: the current user's dict, or `{}` when anonymous. -/
def check_session (st : ServerState) : ServerState × (Nat × Body) :=
  match get_current_user st with
  | none => (st, (200, .obj []))
  | some u => (st, (200, .obj u.to_dict))

/-- DELETE `/logout`: `session.pop("user_id", None)`, 204. -/
def logout (st : ServerState) : ServerState × (Nat × Body) :=
  ({ st with sess := none }, (204, .text ""))

/-- A query parameter as `request.args.get(name, default, type=int)`
sees it: absent, present but not an integer, or an integer. -/
inductive QParam where
  | missing
  | invalid
  | val (n : Int)
deriving DecidableEq, Repr

/-- `request.args.get(name, default, type=int)`: the integer when the
parameter is present and converts, the default otherwise. -/
def argsGetInt (p : QParam) (dflt : Int) : Int :=
  match p with
  | .val n => n
  | _ => dflt

/-- Insert a note into a descending-by-`created_at` list, after every
note with an equal or larger timestamp (so equal timestamps keep their
relative order). -/
def insertByCreatedDesc (n : NoteT) : List NoteT → List NoteT
  | [] => [n]
  | m :: ms =>
    if m.created_at ≤ n.created_at then n :: m :: ms
    else m :: insertByCreatedDesc n ms

/-- The `ORDER BY created_at DESC` of the notes listing query, as the
storage engine evaluates it over the table's insertion order: a stable
descending sort (ties keep insertion order). -/
def orderByCreatedDesc : List NoteT → List NoteT
  | [] => []
  | n :: ns => insertByCreatedDesc n (orderByCreatedDesc ns)

/-- flask-sqlalchemy's `db.paginate(query, page=page, per_page=per_page,
error_out=False)` (with `max_per_page=None`): a page below 1 becomes 1,
a per-page below 1 becomes the library default 20, and the page's items
are `offset((page-1)*per_page).limit(per_page)`; `pages` is
`ceil(total / per_page)`, or 0 when `total` is 0. -/
def paginate (l : List NoteT) (page per_page : Int) :
    List NoteT × Int × Int × Nat × Nat :=
  let page := if page < 1 then 1 else page
  let per_page := if per_page < 1 then 20 else per_page
  let total := l.length
  let items := (l.drop ((page - 1) * per_page).toNat).take per_page.toNat
  let pages := if total = 0 then 0 else (total + per_page.toNat - 1) / per_page.toNat
  (items, page, per_page, total, pages)

/-- GET `/notes`: behind the `login_required` gate; reads `page`
(default 1) and `per_page` (default 10, capped at 50), lists the
current user's notes newest-first, paginated. -/
def get_notes (st : ServerState) (pageP per_pageP : QParam) :
    ServerState × (Nat × Body) :=
  match get_current_user st with
  | none => (st, (401, unauthorizedBody))
  | some u =>
    let page := argsGetInt pageP 1
    let per_page0 := argsGetInt per_pageP 10
    let per_page := if per_page0 > 50 then 50 else per_page0
    let q := orderByCreatedDesc (st.notes.filter (fun n => n.user_id = u.id))
    match paginate q page per_page with
    | (items, pg, pp, total, pages) =>
      (st, (200, .paged (items.map NoteT.to_dict) pg pp total pages))

/-- The POST `/notes` request body. -/
structure CreateNoteReq where
  title : Option String
  content : Option String
deriving DecidableEq, Repr

/-- POST `/notes`: behind the gate; trims `title`/`content`, collects
both required-field errors, and on success persists one new `Note`
owned by the current user with `created_at = updated_at = now`. -/
def create_note (st : ServerState) (now : Nat) (req : CreateNoteReq) :
    ServerState × (Nat × Body) :=
  match get_current_user st with
  | none => (st, (401, unauthorizedBody))
  | some u =>
    let title := pyStrip (req.title.getD "")
    let content := pyStrip (req.content.getD "")
    let errors :=
      (if title = "" then ["Title is required."] else []) ++
      (if content = "" then ["Content is required."] else [])
    if errors = [] then
      let note : NoteT :=
        { id := st.next_note_id, title := title, content := content,
          created_at := now, updated_at := now, user_id := u.id }
      ({ st with notes := st.notes ++ [note], next_note_id := st.next_note_id + 1 },
       (201, .obj note.to_dict))
    else
      (st, (400, .errs errors))

/-- The PATCH `/notes/<id>` request body: each field may be absent
(`none`), JSON null (`some none`), or a string (`some (some s)`). -/
structure UpdateNoteReq where
  title : Option (Option String)
  content : Option (Option String)
deriving DecidableEq, Repr

/-- `Note.query.filter_by(id=note_id, user_id=uid).first()`. -/
def firstOwnedNote (notes : List NoteT) (note_id uid : Nat) : Option NoteT :=
  notes.find? (fun n => n.id = note_id && n.user_id = uid)

/-- Apply one PATCH body field to the stored value: present-and-non-null
values are trimmed and applied, anything else leaves the value alone. -/
def applyField (cur : String) : Option (Option String) → String
  | some (some s) => pyStrip s
  | _ => cur

/-- Commit the updated row: replace the first note matching the
`filter_by(id=note_id, user_id=uid)` lookup. -/
def replaceFirstNote (note_id uid : Nat) (new : NoteT) : List NoteT → List NoteT
  | [] => []
  | n :: ns =>
    if n.id = note_id && n.user_id = uid then new :: ns
    else n :: replaceFirstNote note_id uid new ns

/-- PATCH `/notes/<id>`: behind the gate; 404 unless a note with that id
owned by the caller exists; applies exactly the present-and-non-null
fields (trimmed). `updated_at` refreshes to `now` exactly when the
flush emits an UPDATE for the row, which happens only when some
assigned column's value differs from the committed value (SQLAlchemy
compares them with the type's is_equal/compare_values at flush time);
an update whose applied values all equal the stored ones — or which
applies nothing — emits no UPDATE and `onupdate` never fires. -/
def update_note (st : ServerState) (now : Nat) (note_id : Nat)
    (req : UpdateNoteReq) : ServerState × (Nat × Body) :=
  match get_current_user st with
  | none => (st, (401, unauthorizedBody))
  | some u =>
    match firstOwnedNote st.notes note_id u.id with
    | none => (st, (404, .obj [("error", .jstr "Note not found")]))
    | some note =>
      let dirty := applyField note.title req.title ≠ note.title ∨
        applyField note.content req.content ≠ note.content
      let note2 : NoteT :=
        { note with
          title := applyField note.title req.title,
          content := applyField note.content req.content,
          updated_at := if dirty then now else note.updated_at }
      ({ st with notes := replaceFirstNote note_id u.id note2 st.notes },
       (200, .obj note2.to_dict))

/-- Remove the first note matching the ownership-scoped lookup
(`db.session.delete(note)` on the row `first()` returned). -/
def removeFirstNote (note_id uid : Nat) : List NoteT → List NoteT
  | [] => []
  | n :: ns =>
    if n.id = note_id && n.user_id = uid then ns
    else n :: removeFirstNote note_id uid ns

/-- DELETE `/notes/<id>`: behind the gate; 404 unless a note with that
id owned by the caller exists; on success the row is removed. -/
def delete_note (st : ServerState) (note_id : Nat) : ServerState × (Nat × Body) :=
  match get_current_user st with
  | none => (st, (401, unauthorizedBody))
  | some u =>
    match firstOwnedNote st.notes note_id u.id with
    | none => (st, (404, .obj [("error", .jstr "Note not found")]))
    | some _ =>
      ({ st with notes := removeFirstNote note_id u.id st.notes }, (204, .text ""))

/-- A small concrete server state used to instantiate the theorems:
two users, three notes (two owned by user 1, one by user 2, with a
`created_at` tie between notes 2 and 3), user 1 logged in. -/
def sampleState : ServerState :=
  { users := [⟨1, "alice", "H1"⟩, ⟨2, "bob", "H2"⟩],
    notes := [⟨1, "a", "c", 5, 5, 1⟩, ⟨2, "b", "c", 7, 7, 1⟩, ⟨3, "x", "c", 7, 7, 2⟩],
    next_user_id := 3, next_note_id := 4, sess := some 1 }

/-- `sampleState` with a session whose user id resolves to no user. -/
def staleState : ServerState :=
  { sampleState with sess := some 9 }

/-- C8: no external-facing representation of a `User` contains the
password hash or raw password: `to_dict` is only `id` and `username`,
so users differing only in their stored hash serialize identically,
and reading the `password` attribute raises. -/
theorem user_to_dict_hides_password_hash (u1 u2 : UserT)
    (hid : u1.id = u2.id) (hname : u1.username = u2.username) :
    u1.to_dict = u2.to_dict ∧
    u1.to_dict.map Prod.fst = ["id", "username"] ∧
    u1.password = Except.error "Password is write-only." := by
  refine ⟨?_, rfl, rfl⟩
  simp [UserT.to_dict, hid, hname]

/-- Witness for C8 at two concrete users that differ only in the hash. -/
theorem user_to_dict_hides_password_hash_witness :
    UserT.to_dict ⟨1, "alice", "H1"⟩ = UserT.to_dict ⟨1, "alice", "H2"⟩ ∧
    (UserT.to_dict ⟨1, "alice", "H1"⟩).map Prod.fst = ["id", "username"] ∧
    UserT.password ⟨1, "alice", "H1"⟩ = Except.error "Password is write-only." :=
  user_to_dict_hides_password_hash ⟨1, "alice", "H1"⟩ ⟨1, "alice", "H2"⟩ rfl rfl

/-- C2: every failing login — existing username with a password that
fails verification, nonexistent username, or missing fields — yields
the identical response: 401 with `{"error": "Invalid username or
password"}`, and the state (in particular the session) is unchanged. -/
theorem login_failures_indistinguishable
    (verify : String → String → Bool) (st : ServerState)
    (r1 r2 r3 : LoginReq) (n1 p1 n2 : String) (u : UserT)
    (h1n : r1.username = some n1) (h1p : r1.password = some p1)
    (h1u : firstUserNamed st.users n1 = some u)
    (h1chk : u.check_password verify p1 = false)
    (h2n : r2.username = some n2)
    (h2u : firstUserNamed st.users n2 = none)
    (h3 : pyFalsy r3.username = true ∨ pyFalsy r3.password = true) :
    login verify st r1 = (st, (401, invalidCredentialsBody)) ∧
    login verify st r2 = (st, (401, invalidCredentialsBody)) ∧
    login verify st r3 = (st, (401, invalidCredentialsBody)) := by
  refine ⟨?_, ?_, ?_⟩
  · by_cases hb : (pyFalsy r1.username || pyFalsy r1.password) = true
    · simp [login, hb]
    · simp [login, hb, h1n, h1p, User_authenticate, h1u, h1chk]
  · by_cases hb : (pyFalsy r2.username || pyFalsy r2.password) = true
    · simp [login, hb]
    · simp [login, hb, h2n, User_authenticate, h2u]
  · have hb : (pyFalsy r3.username || pyFalsy r3.password) = true := by
      rcases h3 with h | h <;> simp [h]
    simp [login, hb]

/-- Witness for C2: wrong password for "alice", unknown "carol", and a
request with both fields missing, against `sampleState`. -/
theorem login_failures_indistinguishable_witness :
    login (fun _ _ => false) sampleState ⟨some "alice", some "pw"⟩ =
      (sampleState, (401, invalidCredentialsBody)) ∧
    login (fun _ _ => false) sampleState ⟨some "carol", some "pw"⟩ =
      (sampleState, (401, invalidCredentialsBody)) ∧
    login (fun _ _ => false) sampleState ⟨none, none⟩ =
      (sampleState, (401, invalidCredentialsBody)) :=
  login_failures_indistinguishable (fun _ _ => false) sampleState
    ⟨some "alice", some "pw"⟩ ⟨some "carol", some "pw"⟩ ⟨none, none⟩
    "alice" "pw" "carol" ⟨1, "alice", "H1"⟩
    rfl rfl (by decide) (by decide) rfl (by decide) (Or.inl (by decide))

/-- C9: operations are atomic — one persisted write or none. A signup
that fails validation (422) leaves the state (users, session) exactly
as it was; a successful signup (201) appends exactly one user and
starts that user's session; a note creation that fails validation
(400) leaves the state unchanged; a successful creation (201) appends
exactly one note. -/
theorem operations_atomic (hash : String → String) (st : ServerState)
    (now : Nat) (sreq : SignupReq) (creq : CreateNoteReq) :
    ((signup hash st sreq).2.1 = 422 → (signup hash st sreq).1 = st) ∧
    ((signup hash st sreq).2.1 = 201 →
      ∃ u, (signup hash st sreq).1.users = st.users ++ [u] ∧
        (signup hash st sreq).1.notes = st.notes ∧
        (signup hash st sreq).1.sess = some u.id) ∧
    ((create_note st now creq).2.1 = 400 → (create_note st now creq).1 = st) ∧
    ((create_note st now creq).2.1 = 201 →
      ∃ n, (create_note st now creq).1.notes = st.notes ++ [n] ∧
        (create_note st now creq).1.users = st.users) := by
  refine ⟨?_, ?_, ?_, ?_⟩
  · intro h
    by_cases herr : signupErrors st sreq = []
    · cases hp : sreq.password with
      | some p => simp [signup, herr, hp] at h
      | none => simp [signup, herr, hp] at h
    · simp [signup, herr]
  · intro h
    by_cases herr : signupErrors st sreq = []
    · cases hp : sreq.password with
      | some p =>
        refine ⟨⟨st.next_user_id, pyStrip (sreq.username.getD ""), hash p⟩, ?_, ?_, ?_⟩ <;>
          simp [signup, herr, hp]
      | none => simp [signup, herr, hp] at h
    · simp [signup, herr] at h
  · intro h
    cases hcur : get_current_user st with
    | none => simp [create_note, hcur] at h
    | some u =>
      by_cases herr :
          ((if pyStrip (creq.title.getD "") = "" then ["Title is required."] else []) ++
            (if pyStrip (creq.content.getD "") = "" then ["Content is required."] else [])) = []
      · simp [create_note, hcur, herr] at h
      · simp [create_note, hcur, herr]
  · intro h
    cases hcur : get_current_user st with
    | none => simp [create_note, hcur] at h
    | some u =>
      by_cases herr :
          ((if pyStrip (creq.title.getD "") = "" then ["Title is required."] else []) ++
            (if pyStrip (creq.content.getD "") = "" then ["Content is required."] else [])) = []
      · refine ⟨⟨st.next_note_id, pyStrip (creq.title.getD ""), pyStrip (creq.content.getD ""),
          now, now, u.id⟩, ?_, ?_⟩ <;> simp [create_note, hcur, herr]
      · simp [create_note, hcur, herr] at h

/-- The ownership-scoped lookup finds nothing exactly when no note with
that id owned by that user is in the table. -/
theorem firstOwnedNote_eq_none_iff (notes : List NoteT) (note_id uid : Nat) :
    firstOwnedNote notes note_id uid = none ↔
      ¬ ∃ n ∈ notes, n.id = note_id ∧ n.user_id = uid := by
  simp [firstOwnedNote, List.find?_eq_none]

/-- A concatenation of conditional singletons is a sublist of the list
of the four candidates, in order. -/
theorem ite_singleton_sublist_four {α : Type} (c1 c2 c3 c4 : Prop)
    [Decidable c1] [Decidable c2] [Decidable c3] [Decidable c4] (a b c d : α) :
    List.Sublist ((((if c1 then [a] else []) ++ (if c2 then [b] else [])) ++
      (if c3 then [c] else [])) ++ (if c4 then [d] else [])) [a, b, c, d] := by
  have h1 : List.Sublist (if c1 then [a] else []) [a] := by split <;> simp
  have h2 : List.Sublist (if c2 then [b] else []) [b] := by split <;> simp
  have h3 : List.Sublist (if c3 then [c] else []) [c] := by split <;> simp
  have h4 : List.Sublist (if c4 then [d] else []) [d] := by split <;> simp
  exact ((h1.append h2).append h3).append h4

/-- C1: signup validation collects all applicable failures: each of the
four messages is present exactly when its condition holds (the
uniqueness message only for a non-empty username), the list keeps the
source order required-username, required-password, mismatch, taken,
and a non-empty list makes the request fail with 422 carrying exactly
those messages, leaving the state unchanged. -/
theorem signup_collects_all_errors (hash : String → String)
    (st : ServerState) (req : SignupReq) :
    ("Username is required." ∈ signupErrors st req ↔
      pyStrip (req.username.getD "") = "") ∧
    ("Password is required." ∈ signupErrors st req ↔ pyFalsy req.password = true) ∧
    ("Passwords do not match." ∈ signupErrors st req ↔
      req.password ≠ req.password_confirmation) ∧
    ("Username already taken." ∈ signupErrors st req ↔
      (pyStrip (req.username.getD "") ≠ "" ∧
        (firstUserNamed st.users (pyStrip (req.username.getD ""))).isSome = true)) ∧
    List.Sublist (signupErrors st req) ["Username is required.",
      "Password is required.", "Passwords do not match.", "Username already taken."] ∧
    (signupErrors st req ≠ [] →
      signup hash st req = (st, (422, .errs (signupErrors st req)))) := by
  refine ⟨?_, ?_, ?_, ?_, ?_, ?_⟩
  · simp only [signupErrors]
    split_ifs <;> simp_all
  · simp only [signupErrors]
    split_ifs <;> simp_all
  · simp only [signupErrors]
    split_ifs <;> simp_all
  · simp only [signupErrors]
    split_ifs <;> simp_all
  · simp only [signupErrors]
    apply ite_singleton_sublist_four
  · intro hne
    simp [signup, hne]

/-- C3: for an authenticated caller, updating or deleting note id fails
with 404 `{"error": "Note not found"}` and leaves the state unchanged
exactly when no note with that id owned by the caller exists (so a
note owned by a different user is indistinguishable from a nonexistent
one). -/
theorem note_mutation_not_found (st : ServerState) (now note_id : Nat)
    (req : UpdateNoteReq) (u : UserT) (hu : get_current_user st = some u) :
    (update_note st now note_id req =
        (st, (404, .obj [("error", .jstr "Note not found")])) ↔
      ¬ ∃ n ∈ st.notes, n.id = note_id ∧ n.user_id = u.id) ∧
    (delete_note st note_id =
        (st, (404, .obj [("error", .jstr "Note not found")])) ↔
      ¬ ∃ n ∈ st.notes, n.id = note_id ∧ n.user_id = u.id) := by
  cases hf : firstOwnedNote st.notes note_id u.id with
  | none =>
    have hno := (firstOwnedNote_eq_none_iff st.notes note_id u.id).mp hf
    constructor <;> simp [update_note, delete_note, hu, hf, hno]
  | some note =>
    have hmem : note ∈ st.notes ∧ (note.id = note_id ∧ note.user_id = u.id) := by
      have h1 := List.mem_of_find?_eq_some hf
      have h2 := List.find?_some hf
      simp at h2
      exact ⟨h1, h2⟩
    have hex : ∃ n ∈ st.notes, n.id = note_id ∧ n.user_id = u.id :=
      ⟨note, hmem.1, hmem.2⟩
    constructor <;> simp [update_note, delete_note, hu, hf, hex]

/-- Witness for C3: `sampleState` (user 1 logged in) with note id 3,
which exists but is owned by user 2. -/
theorem note_mutation_not_found_witness :
    (update_note sampleState 50 3 ⟨none, none⟩ =
        (sampleState, (404, .obj [("error", .jstr "Note not found")])) ↔
      ¬ ∃ n ∈ sampleState.notes, n.id = 3 ∧ n.user_id = (1 : Nat)) ∧
    (delete_note sampleState 3 =
        (sampleState, (404, .obj [("error", .jstr "Note not found")])) ↔
      ¬ ∃ n ∈ sampleState.notes, n.id = 3 ∧ n.user_id = (1 : Nat)) :=
  note_mutation_not_found sampleState 50 3 ⟨none, none⟩ ⟨1, "alice", "H1"⟩ (by decide)

/-- C10: a session whose `user_id` resolves to no existing user is an
anonymous session at the interface: `check_session` answers 200 `{}`,
and every `/notes` route answers 401 `{"error": "Unauthorized"}`
through the shared gate, with the state untouched. -/
theorem stale_session_anonymous (st : ServerState) (uid : Nat)
    (hs : st.sess = some uid) (hmiss : userById st.users uid = none)
    (pageP per_pageP : QParam) (now note_id : Nat)
    (creq : CreateNoteReq) (ureq : UpdateNoteReq) :
    get_current_user st = none ∧
    check_session st = (st, (200, .obj [])) ∧
    get_notes st pageP per_pageP = (st, (401, unauthorizedBody)) ∧
    create_note st now creq = (st, (401, unauthorizedBody)) ∧
    update_note st now note_id ureq = (st, (401, unauthorizedBody)) ∧
    delete_note st note_id = (st, (401, unauthorizedBody)) := by
  have hcur : get_current_user st = none := by
    by_cases h0 : uid = 0 <;> simp [get_current_user, hs, h0, hmiss]
  exact ⟨hcur, by simp [check_session, hcur], by simp [get_notes, hcur],
    by simp [create_note, hcur], by simp [update_note, hcur],
    by simp [delete_note, hcur]⟩

/-- Witness for C10: `staleState` carries `user_id = 9`, which no user
has. -/
theorem stale_session_anonymous_witness :
    get_current_user staleState = none ∧
    check_session staleState = (staleState, (200, .obj [])) ∧
    get_notes staleState .missing .missing = (staleState, (401, unauthorizedBody)) ∧
    create_note staleState 50 ⟨some "t", some "c"⟩ =
      (staleState, (401, unauthorizedBody)) ∧
    update_note staleState 50 1 ⟨none, none⟩ =
      (staleState, (401, unauthorizedBody)) ∧
    delete_note staleState 1 = (staleState, (401, unauthorizedBody)) :=
  stale_session_anonymous staleState 9 rfl (by decide) .missing .missing 50 1
    ⟨some "t", some "c"⟩ ⟨none, none⟩

/-- C6 counterexample: with user 1 logged in, a PATCH of note 2 whose
body supplies no fields at all, and likewise a PATCH supplying only
`content` equal to the stored value "c", succeed with 200 yet leave
the state — in particular note 2's `updated_at`, previously 7 —
exactly as it was (the clock is 50): no column has a net change, so
no UPDATE is emitted, `onupdate` never fires, and `updated_at` is not
strictly later than before the call. -/
theorem update_note_no_net_change_keeps_updated_at :
    (update_note sampleState 50 2 ⟨none, none⟩).2.1 = 200 ∧
    (update_note sampleState 50 2 ⟨none, none⟩).1 = sampleState ∧
    (update_note sampleState 50 2 ⟨none, some (some "c")⟩).2.1 = 200 ∧
    (update_note sampleState 50 2 ⟨none, some (some "c")⟩).1 = sampleState ∧
    ¬ ∃ n ∈ (update_note sampleState 50 2 ⟨none, some (some "c")⟩).1.notes,
        n.id = 2 ∧ 7 < n.updated_at := by
  decide

/-- C6 (amended): a successful update refreshes `updated_at` to the
current time exactly when some applied (trimmed) value differs from
the stored one — only then does the flush emit an UPDATE and fire
`onupdate`. An update applying no fields, or only values equal to the
stored ones, succeeds with 200 but leaves `updated_at` unchanged.
When some value changes and the clock has advanced, `updated_at` is
strictly later than before. -/
theorem update_note_refreshes_updated_at (st : ServerState) (now note_id : Nat)
    (req : UpdateNoteReq) (u : UserT) (note : NoteT)
    (hu : get_current_user st = some u)
    (hn : firstOwnedNote st.notes note_id u.id = some note) :
    ∃ note2 : NoteT,
      update_note st now note_id req =
        ({ st with notes := replaceFirstNote note_id u.id note2 st.notes },
         (200, .obj note2.to_dict)) ∧
      ((applyField note.title req.title ≠ note.title ∨
        applyField note.content req.content ≠ note.content) →
        note2.updated_at = now) ∧
      ((applyField note.title req.title = note.title ∧
        applyField note.content req.content = note.content) →
        note2.updated_at = note.updated_at) ∧
      ((applyField note.title req.title ≠ note.title ∨
        applyField note.content req.content ≠ note.content) →
        note.updated_at < now → note.updated_at < note2.updated_at) := by
  refine ⟨({ note with
      title := applyField note.title req.title,
      content := applyField note.content req.content,
      updated_at := (if applyField note.title req.title ≠ note.title ∨
          applyField note.content req.content ≠ note.content
        then now else note.updated_at) }), ?_, ?_, ?_, ?_⟩
  · simp only [update_note, hu, hn]
  · intro h
    have he : (if applyField note.title req.title ≠ note.title ∨
          applyField note.content req.content ≠ note.content
        then now else note.updated_at) = now := if_pos h
    simp [he]
  · intro h
    have he : (if applyField note.title req.title ≠ note.title ∨
          applyField note.content req.content ≠ note.content
        then now else note.updated_at) = note.updated_at :=
      if_neg (by simp [h.1, h.2])
    simp [he]
  · intro h hlt
    have he : (if applyField note.title req.title ≠ note.title ∨
          applyField note.content req.content ≠ note.content
        then now else note.updated_at) = now := if_pos h
    simpa [he] using hlt

/-- Witness for C6 (amended): PATCH of note 2 changing `content` from
"c" to "new" refreshes `updated_at` from 7 to the clock, 50. -/
theorem update_note_refreshes_updated_at_witness :
    ∃ note2 : NoteT,
      update_note sampleState 50 2 ⟨none, some (some "new")⟩ =
        ({ sampleState with notes := replaceFirstNote 2 1 note2 sampleState.notes },
         (200, .obj note2.to_dict)) ∧
      ((applyField "b" (none : Option (Option String)) ≠ "b" ∨
        applyField "c" (some (some "new")) ≠ "c") → note2.updated_at = 50) ∧
      ((applyField "b" (none : Option (Option String)) = "b" ∧
        applyField "c" (some (some "new")) = "c") → note2.updated_at = 7) ∧
      ((applyField "b" (none : Option (Option String)) ≠ "b" ∨
        applyField "c" (some (some "new")) ≠ "c") → 7 < 50 → 7 < note2.updated_at) :=
  update_note_refreshes_updated_at sampleState 50 2 ⟨none, some (some "new")⟩
    ⟨1, "alice", "H1"⟩ ⟨2, "b", "c", 7, 7, 1⟩ (by decide) (by decide)

/-- C7: a successful update applies exactly the present-and-non-null
body fields, each trimmed — an explicit empty string is stored as the
empty string, with no re-validation — while absent or null fields and
the note's `id`, `user_id` and `created_at` are untouched. -/
theorem update_note_partial_field_application (st : ServerState)
    (now note_id : Nat) (req : UpdateNoteReq) (u : UserT) (note : NoteT)
    (hu : get_current_user st = some u)
    (hn : firstOwnedNote st.notes note_id u.id = some note) :
    ∃ note2 : NoteT,
      update_note st now note_id req =
        ({ st with notes := replaceFirstNote note_id u.id note2 st.notes },
         (200, .obj note2.to_dict)) ∧
      note2.id = note.id ∧ note2.user_id = note.user_id ∧
      note2.created_at = note.created_at ∧
      (∀ s, req.title = some (some s) → note2.title = pyStrip s) ∧
      ((req.title = none ∨ req.title = some none) → note2.title = note.title) ∧
      (∀ s, req.content = some (some s) → note2.content = pyStrip s) ∧
      ((req.content = none ∨ req.content = some none) → note2.content = note.content) ∧
      (req.title = some (some "") → note2.title = "") := by
  refine ⟨({ note with
      title := applyField note.title req.title,
      content := applyField note.content req.content,
      updated_at := (if applyField note.title req.title ≠ note.title ∨
          applyField note.content req.content ≠ note.content
        then now else note.updated_at) }), ?_, rfl, rfl, rfl, ?_, ?_, ?_, ?_, ?_⟩
  · simp only [update_note, hu, hn]
  · intro s hs
    simp [applyField, hs]
  · rintro (h | h) <;> simp [applyField, h]
  · intro s hs
    simp [applyField, hs]
  · rintro (h | h) <;> simp [applyField, h]
  · intro h
    simp only [applyField, h]
    decide

/-- Witness for C7: PATCH of note 2 with `title` = "  T  " (applied,
trimmed) and `content` = null (left untouched). -/
theorem update_note_partial_field_application_witness :
    ∃ note2 : NoteT,
      update_note sampleState 50 2 ⟨some (some "  T  "), some none⟩ =
        ({ sampleState with notes := replaceFirstNote 2 1 note2 sampleState.notes },
         (200, .obj note2.to_dict)) ∧
      note2.id = 2 ∧ note2.user_id = 1 ∧ note2.created_at = 7 ∧
      (∀ s, (some (some "  T  ") : Option (Option String)) = some (some s) →
        note2.title = pyStrip s) ∧
      (((some (some "  T  ") : Option (Option String)) = none ∨
        (some (some "  T  ") : Option (Option String)) = some none) →
        note2.title = "b") ∧
      (∀ s, (some none : Option (Option String)) = some (some s) →
        note2.content = pyStrip s) ∧
      (((some none : Option (Option String)) = none ∨
        (some none : Option (Option String)) = some none) → note2.content = "c") ∧
      ((some (some "  T  ") : Option (Option String)) = some (some "") →
        note2.title = "") :=
  update_note_partial_field_application sampleState 50 2
    ⟨some (some "  T  "), some none⟩ ⟨1, "alice", "H1"⟩ ⟨2, "b", "c", 7, 7, 1⟩
    (by decide) (by decide)

/-- Membership is preserved by `insertByCreatedDesc`. -/
theorem mem_insertByCreatedDesc {a n : NoteT} {l : List NoteT} :
    a ∈ insertByCreatedDesc n l ↔ a = n ∨ a ∈ l := by
  induction l with
  | nil => simp [insertByCreatedDesc]
  | cons m ms ih =>
    simp only [insertByCreatedDesc]
    split
    · simp [List.mem_cons]
    · simp only [List.mem_cons, ih]
      tauto

/-- `insertByCreatedDesc` keeps a descending-by-`created_at` list
descending. -/
theorem pairwise_insertByCreatedDesc {n : NoteT} {l : List NoteT}
    (h : l.Pairwise (fun a b => b.created_at ≤ a.created_at)) :
    (insertByCreatedDesc n l).Pairwise (fun a b => b.created_at ≤ a.created_at) := by
  induction l with
  | nil => simp [insertByCreatedDesc]
  | cons m ms ih =>
    rcases List.pairwise_cons.mp h with ⟨hm, hms⟩
    simp only [insertByCreatedDesc]
    split
    · rename_i hle
      refine List.pairwise_cons.mpr ⟨?_, h⟩
      intro b hb
      rcases List.mem_cons.mp hb with rfl | hbms
      · exact hle
      · exact le_trans (hm b hbms) hle
    · rename_i hgt
      refine List.pairwise_cons.mpr ⟨?_, ih hms⟩
      intro b hb
      rcases mem_insertByCreatedDesc.mp hb with rfl | hbms
      · omega
      · exact hm b hbms

/-- The inserted note lands after every strictly-newer note and before
everything else, so each equal-timestamp group gains the new note at
its front and is otherwise untouched. -/
theorem filter_insertByCreatedDesc (t : Nat) (n : NoteT) (l : List NoteT) :
    (insertByCreatedDesc n l).filter (fun m => m.created_at = t) =
      if n.created_at = t then n :: l.filter (fun m => m.created_at = t)
      else l.filter (fun m => m.created_at = t) := by
  induction l with
  | nil =>
    simp only [insertByCreatedDesc, List.filter_cons, List.filter_nil]
    split <;> simp_all
  | cons m ms ih =>
    simp only [insertByCreatedDesc]
    split
    · rename_i hle
      by_cases hnt : n.created_at = t <;> simp [List.filter_cons, hnt]
    · rename_i hgt
      have hmn : n.created_at < m.created_at := by omega
      by_cases hnt : n.created_at = t
      · have hmt : ¬ m.created_at = t := by omega
        simp [List.filter_cons, hmt, hnt, ih]
      · by_cases hmt : m.created_at = t <;> simp [List.filter_cons, hmt, hnt, ih]

/-- `orderByCreatedDesc` does not add or lose notes. -/
theorem mem_orderByCreatedDesc {a : NoteT} {l : List NoteT} :
    a ∈ orderByCreatedDesc l ↔ a ∈ l := by
  induction l with
  | nil => simp [orderByCreatedDesc]
  | cons n ns ih => simp [orderByCreatedDesc, mem_insertByCreatedDesc, ih]

/-- The modelled `ORDER BY created_at DESC` output is descending. -/
theorem pairwise_orderByCreatedDesc (l : List NoteT) :
    (orderByCreatedDesc l).Pairwise (fun a b => b.created_at ≤ a.created_at) := by
  induction l with
  | nil => simp [orderByCreatedDesc]
  | cons n ns ih => exact pairwise_insertByCreatedDesc ih

/-- Stability: the sort keeps every equal-timestamp group exactly as it
appears in insertion order. -/
theorem filter_orderByCreatedDesc (t : Nat) (l : List NoteT) :
    (orderByCreatedDesc l).filter (fun m => m.created_at = t) =
      l.filter (fun m => m.created_at = t) := by
  induction l with
  | nil => rfl
  | cons n ns ih =>
    simp only [orderByCreatedDesc]
    rw [filter_insertByCreatedDesc]
    by_cases hnt : n.created_at = t <;> simp [List.filter_cons, hnt, ih]

/-- C4: for an authenticated list request the page defaults to 1 when
the parameter is absent or not an integer and per-page defaults to 10
likewise; a requested per-page above 50 is silently clamped to 50 (the
request still succeeds with 200), the echoed per-page equals the
clamped value (the requested value itself when it is between 1 and
50), and the page never holds more items than the echoed per-page. -/
theorem get_notes_defaults_and_clamp (st : ServerState) (u : UserT)
    (hu : get_current_user st = some u) (pageP per_pageP : QParam) :
    ∃ (items : List (List (String × JPrim))) (pg pp : Int) (total pages : Nat),
      get_notes st pageP per_pageP = (st, (200, .paged items pg pp total pages)) ∧
      ((pageP = QParam.missing ∨ pageP = QParam.invalid) → pg = 1) ∧
      ((per_pageP = QParam.missing ∨ per_pageP = QParam.invalid) → pp = 10) ∧
      (∀ v : Int, per_pageP = QParam.val v → 50 < v → pp = 50) ∧
      (∀ v : Int, per_pageP = QParam.val v → 1 ≤ v → v ≤ 50 → pp = v) ∧
      items.length ≤ pp.toNat := by
  simp only [get_notes, hu, paginate]
  refine ⟨_, _, _, _, _, rfl, ?_, ?_, ?_, ?_, ?_⟩
  · rintro (rfl | rfl) <;> simp [argsGetInt]
  · rintro (rfl | rfl) <;> simp [argsGetInt]
  · rintro v rfl h50
    simp only [argsGetInt]
    split_ifs <;> omega
  · rintro v rfl h1 h50
    simp only [argsGetInt]
    split_ifs <;> omega
  · simp only [List.length_map, List.length_take]
    exact min_le_left _ _

/-- Witness for C4: `sampleState` with `page` absent and
`per_page=100`. -/
theorem get_notes_defaults_and_clamp_witness :
    ∃ (items : List (List (String × JPrim))) (pg pp : Int) (total pages : Nat),
      get_notes sampleState .missing (.val 100) =
        (sampleState, (200, .paged items pg pp total pages)) ∧
      (((QParam.missing : QParam) = QParam.missing ∨
        (QParam.missing : QParam) = QParam.invalid) → pg = 1) ∧
      ((QParam.val 100 = QParam.missing ∨ QParam.val 100 = QParam.invalid) →
        pp = 10) ∧
      (∀ v : Int, QParam.val 100 = QParam.val v → 50 < v → pp = 50) ∧
      (∀ v : Int, QParam.val 100 = QParam.val v → 1 ≤ v → v ≤ 50 → pp = v) ∧
      items.length ≤ pp.toNat :=
  get_notes_defaults_and_clamp sampleState ⟨1, "alice", "H1"⟩ (by decide)
    .missing (.val 100)

/-- C5: an authenticated list request returns only notes owned by the
caller, in descending `created_at` order, and every group of notes
sharing a `created_at` value appears as a subsequence of the table's
insertion order (stable ties). -/
theorem get_notes_owner_scoped_ordered (st : ServerState) (u : UserT)
    (hu : get_current_user st = some u) (pageP per_pageP : QParam) :
    ∃ (ns : List NoteT) (pg pp : Int) (total pages : Nat),
      get_notes st pageP per_pageP =
        (st, (200, .paged (ns.map NoteT.to_dict) pg pp total pages)) ∧
      (∀ n ∈ ns, n.user_id = u.id) ∧
      ns.Pairwise (fun a b => b.created_at ≤ a.created_at) ∧
      ∀ t : Nat, List.Sublist (ns.filter (fun n => n.created_at = t))
        (st.notes.filter (fun n => n.created_at = t)) := by
  simp only [get_notes, hu, paginate]
  refine ⟨_, _, _, _, _, rfl, ?_, ?_, ?_⟩
  · intro n hn
    have hq : n ∈ orderByCreatedDesc
        (st.notes.filter (fun m => m.user_id = u.id)) :=
      List.mem_of_mem_drop (List.mem_of_mem_take hn)
    have hft := (List.mem_filter.mp (mem_orderByCreatedDesc.mp hq)).2
    exact of_decide_eq_true hft
  · exact List.Pairwise.sublist
      ((List.take_sublist _ _).trans (List.drop_sublist _ _))
      (pairwise_orderByCreatedDesc _)
  · intro t
    refine List.Sublist.trans ?_
      ((@List.filter_sublist NoteT (fun n => decide (n.user_id = u.id))
        st.notes).filter _)
    conv_rhs => rw [← filter_orderByCreatedDesc t]
    exact ((List.take_sublist _ _).trans (List.drop_sublist _ _)).filter _

/-- Witness for C5 at `sampleState` with default parameters. -/
theorem get_notes_owner_scoped_ordered_witness :
    ∃ (ns : List NoteT) (pg pp : Int) (total pages : Nat),
      get_notes sampleState .missing .missing =
        (sampleState, (200, .paged (ns.map NoteT.to_dict) pg pp total pages)) ∧
      (∀ n ∈ ns, n.user_id = 1) ∧
      ns.Pairwise (fun a b => b.created_at ≤ a.created_at) ∧
      ∀ t : Nat, List.Sublist (ns.filter (fun n => n.created_at = t))
        (sampleState.notes.filter (fun n => n.created_at = t)) :=
  get_notes_owner_scoped_ordered sampleState ⟨1, "alice", "H1"⟩ (by decide)
    .missing .missing

end NotesApp
